import Mathlib

/-!
Verification of the SpConj Spanish-verb conjugation resolver.

The resolver lives in `conjugation_utils.py` and the quiz layer in
`main.py`.  The static data tables (`verb_data.py`: verb lists, tense and
person enumerations, regular-suffix tables, irregular-override table) are
imported by the source but are not part of it; we therefore embed the
resolver parametrically over a `VerbData` record, and additionally supply
one concrete instance modelled from the specification for claims that
depend on the actual data.

Python dictionaries keyed by strings are embedded as association lists
(`List (String × _)`) with `List.lookup`; Python's `k in d` test is
`(d.lookup k).isSome`, and `d[k]` either finds the value or raises
`KeyError`, which we surface as an explicit error constructor.  Fallible
functions return `Except ConjError`.
-/

/-- Error kinds raised by the resolver.  The Python code raises
`ValueError` with four distinct message shapes (plus the implicit
`KeyError` a dictionary subscript could raise); each constructor records
the data interpolated into the corresponding message. -/
inductive ConjError where
  | unknownVerb (verb : String) (valid : List String)
  | unknownTense (tense : String) (valid : List String)
  | unknownPerson (person : String) (valid : List String)
  | unsupportedEnding (ending : String)
  | keyError (key : String)
deriving Repr, DecidableEq

/-- Discriminator for the error kind, forgetting the payload. -/
inductive ErrKind where
  | unknownVerb
  | unknownTense
  | unknownPerson
  | unsupportedEnding
  | keyError
deriving Repr, DecidableEq

/-- The kind of a `ConjError`. -/
def ConjError.kind : ConjError → ErrKind
  | .unknownVerb _ _ => .unknownVerb
  | .unknownTense _ _ => .unknownTense
  | .unknownPerson _ _ => .unknownPerson
  | .unsupportedEnding _ => .unsupportedEnding
  | .keyError _ => .keyError

/-- A nested dictionary, tense → person → string; the shape of each
regular-suffix table and of each verb's slice of the override table. -/
abbrev TPDict := List (String × List (String × String))

/-- The static tables of `verb_data.py`.  `REGULAR_VERBS` and
`IRREGULAR_VERBS` also exist in the source data but are not consulted by
`conjugate`, so they are omitted from the record. -/
structure VerbData where
  ALL_VERBS : List String
  TENSES : List String
  PERSONS : List String
  IRREGULAR_OVERRIDES : List (String × TPDict)
  REGULAR_ENDINGS_AR : TPDict
  REGULAR_ENDINGS_ER : TPDict
  REGULAR_ENDINGS_IR : TPDict

/-- Embeds `get_infinitive_ending`: `verb[-2:]`, the last two characters
(the whole string when it is shorter). -/
def get_infinitive_ending (verb : String) : String :=
  verb.takeRight 2

/-- Embeds `get_stem`: `verb[:-2]`, the string with its last two
characters removed (empty when it is shorter). -/
def get_stem (verb : String) : String :=
  verb.dropRight 2

/-- A Python double subscript `tbl[tense][person]`: finds the cell or
raises `KeyError` on the first missing key. -/
def dictGet (tbl : TPDict) (tense person : String) : Except ConjError String :=
  match tbl.lookup tense with
  | none => Except.error (ConjError.keyError tense)
  | some row =>
    match row.lookup person with
    | none => Except.error (ConjError.keyError person)
    | some s => Except.ok s

/-- Embeds `conjugate_regular`: validates tense and person against the
known sets, then dispatches on the infinitive ending, using the full
infinitive as base for future/conditional and the stem otherwise. -/
def conjugate_regular (d : VerbData) (verb tense person : String) :
    Except ConjError String :=
  if tense ∈ d.TENSES then
    if person ∈ d.PERSONS then
      let ending := get_infinitive_ending verb
      if tense = "future" ∨ tense = "conditional" then
        if ending = "ar" then
          (dictGet d.REGULAR_ENDINGS_AR tense person).map (fun s => verb ++ s)
        else if ending = "er" then
          (dictGet d.REGULAR_ENDINGS_ER tense person).map (fun s => verb ++ s)
        else if ending = "ir" then
          (dictGet d.REGULAR_ENDINGS_IR tense person).map (fun s => verb ++ s)
        else
          Except.error (ConjError.unsupportedEnding ending)
      else
        let stem := get_stem verb
        if ending = "ar" then
          (dictGet d.REGULAR_ENDINGS_AR tense person).map (fun s => stem ++ s)
        else if ending = "er" then
          (dictGet d.REGULAR_ENDINGS_ER tense person).map (fun s => stem ++ s)
        else if ending = "ir" then
          (dictGet d.REGULAR_ENDINGS_IR tense person).map (fun s => stem ++ s)
        else
          Except.error (ConjError.unsupportedEnding ending)
    else
      Except.error (ConjError.unknownPerson person d.PERSONS)
  else
    Except.error (ConjError.unknownTense tense d.TENSES)

/-- The override cell the `conjugate` chain of `in` tests reads:
`IRREGULAR_OVERRIDES[verb][tense][person]` when every level is present. -/
def override_entry (d : VerbData) (verb tense person : String) :
    Option String :=
  (d.IRREGULAR_OVERRIDES.lookup verb).bind fun byTense =>
    (byTense.lookup tense).bind fun byPerson =>
      byPerson.lookup person

/-- Embeds `conjugate`: rejects unknown verbs, returns the irregular
override when the nested dictionaries contain the (verb, tense, person)
cell, and otherwise falls back to `conjugate_regular`. -/
def conjugate (d : VerbData) (verb tense person : String) :
    Except ConjError String :=
  if verb ∈ d.ALL_VERBS then
    match override_entry d verb tense person with
    | some form => Except.ok form
    | none => conjugate_regular d verb tense person
  else
    Except.error (ConjError.unknownVerb verb d.ALL_VERBS)

/-- Modelled from the spec: the data file `verb_data.py` that `conjugation_utils.py`
imports is missing from the sources, so its tables are reconstructed from the
specification — ten verbs split into disjoint regular/irregular sets, the fixed
tense enumeration (present, preterite, imperfect, future, conditional,
subjunctive), six grammatical persons, complete regular-suffix tables for the
`ar`/`er`/`ir` ending classes (every (tense, person) cell present, per the
stated invariant), and a sparse irregular-override table keyed per
(verb, tense, person) cell, agreeing with the spec examples
(`ir`/present/Yo ↦ voy, `deber`/present/Yo ↦ debo,
`tener`/future/Nosotros ↦ tendremos, `hablar`/future/Yo ↦ hablaré). -/
def specVerbData : VerbData where
  ALL_VERBS :=
    ["hablar", "trabajar", "deber", "comer", "vivir",
     "ir", "ser", "tener", "hacer", "poder"]
  TENSES :=
    ["present", "preterite", "imperfect", "future", "conditional", "subjunctive"]
  PERSONS := ["Yo", "Tú", "Él", "Nosotros", "Vosotros", "Ellos"]
  IRREGULAR_OVERRIDES :=
    [("ir",
      [("present",
        [("Yo", "voy"), ("Tú", "vas"), ("Él", "va"),
         ("Nosotros", "vamos"), ("Vosotros", "vais"), ("Ellos", "van")]),
       ("preterite",
        [("Yo", "fui"), ("Tú", "fuiste"), ("Él", "fue"),
         ("Nosotros", "fuimos"), ("Vosotros", "fuisteis"), ("Ellos", "fueron")]),
       ("imperfect",
        [("Yo", "iba"), ("Tú", "ibas"), ("Él", "iba"),
         ("Nosotros", "íbamos"), ("Vosotros", "ibais"), ("Ellos", "iban")]),
       ("subjunctive",
        [("Yo", "vaya"), ("Tú", "vayas"), ("Él", "vaya"),
         ("Nosotros", "vayamos"), ("Vosotros", "vayáis"), ("Ellos", "vayan")])]),
     ("ser",
      [("present",
        [("Yo", "soy"), ("Tú", "eres"), ("Él", "es"),
         ("Nosotros", "somos"), ("Vosotros", "sois"), ("Ellos", "son")]),
       ("preterite",
        [("Yo", "fui"), ("Tú", "fuiste"), ("Él", "fue"),
         ("Nosotros", "fuimos"), ("Vosotros", "fuisteis"), ("Ellos", "fueron")]),
       ("imperfect",
        [("Yo", "era"), ("Tú", "eras"), ("Él", "era"),
         ("Nosotros", "éramos"), ("Vosotros", "erais"), ("Ellos", "eran")]),
       ("subjunctive",
        [("Yo", "sea"), ("Tú", "seas"), ("Él", "sea"),
         ("Nosotros", "seamos"), ("Vosotros", "seáis"), ("Ellos", "sean")])]),
     ("tener",
      [("present",
        [("Yo", "tengo"), ("Tú", "tienes"), ("Él", "tiene"), ("Ellos", "tienen")]),
       ("preterite",
        [("Yo", "tuve"), ("Tú", "tuviste"), ("Él", "tuvo"),
         ("Nosotros", "tuvimos"), ("Vosotros", "tuvisteis"), ("Ellos", "tuvieron")]),
       ("future",
        [("Yo", "tendré"), ("Tú", "tendrás"), ("Él", "tendrá"),
         ("Nosotros", "tendremos"), ("Vosotros", "tendréis"), ("Ellos", "tendrán")]),
       ("conditional",
        [("Yo", "tendría"), ("Tú", "tendrías"), ("Él", "tendría"),
         ("Nosotros", "tendríamos"), ("Vosotros", "tendríais"), ("Ellos", "tendrían")]),
       ("subjunctive",
        [("Yo", "tenga"), ("Tú", "tengas"), ("Él", "tenga"),
         ("Nosotros", "tengamos"), ("Vosotros", "tengáis"), ("Ellos", "tengan")])]),
     ("hacer",
      [("present", [("Yo", "hago")]),
       ("preterite",
        [("Yo", "hice"), ("Tú", "hiciste"), ("Él", "hizo"),
         ("Nosotros", "hicimos"), ("Vosotros", "hicisteis"), ("Ellos", "hicieron")]),
       ("future",
        [("Yo", "haré"), ("Tú", "harás"), ("Él", "hará"),
         ("Nosotros", "haremos"), ("Vosotros", "haréis"), ("Ellos", "harán")]),
       ("conditional",
        [("Yo", "haría"), ("Tú", "harías"), ("Él", "haría"),
         ("Nosotros", "haríamos"), ("Vosotros", "haríais"), ("Ellos", "harían")]),
       ("subjunctive",
        [("Yo", "haga"), ("Tú", "hagas"), ("Él", "haga"),
         ("Nosotros", "hagamos"), ("Vosotros", "hagáis"), ("Ellos", "hagan")])]),
     ("poder",
      [("present",
        [("Yo", "puedo"), ("Tú", "puedes"), ("Él", "puede"), ("Ellos", "pueden")]),
       ("preterite",
        [("Yo", "pude"), ("Tú", "pudiste"), ("Él", "pudo"),
         ("Nosotros", "pudimos"), ("Vosotros", "pudisteis"), ("Ellos", "pudieron")]),
       ("future",
        [("Yo", "podré"), ("Tú", "podrás"), ("Él", "podrá"),
         ("Nosotros", "podremos"), ("Vosotros", "podréis"), ("Ellos", "podrán")]),
       ("conditional",
        [("Yo", "podría"), ("Tú", "podrías"), ("Él", "podría"),
         ("Nosotros", "podríamos"), ("Vosotros", "podríais"), ("Ellos", "podrían")]),
       ("subjunctive",
        [("Yo", "pueda"), ("Tú", "puedas"), ("Él", "pueda"),
         ("Nosotros", "podamos"), ("Vosotros", "podáis"), ("Ellos", "puedan")])])]
  REGULAR_ENDINGS_AR :=
    [("present",
      [("Yo", "o"), ("Tú", "as"), ("Él", "a"),
       ("Nosotros", "amos"), ("Vosotros", "áis"), ("Ellos", "an")]),
     ("preterite",
      [("Yo", "é"), ("Tú", "aste"), ("Él", "ó"),
       ("Nosotros", "amos"), ("Vosotros", "asteis"), ("Ellos", "aron")]),
     ("imperfect",
      [("Yo", "aba"), ("Tú", "abas"), ("Él", "aba"),
       ("Nosotros", "ábamos"), ("Vosotros", "abais"), ("Ellos", "aban")]),
     ("future",
      [("Yo", "é"), ("Tú", "ás"), ("Él", "á"),
       ("Nosotros", "emos"), ("Vosotros", "éis"), ("Ellos", "án")]),
     ("conditional",
      [("Yo", "ía"), ("Tú", "ías"), ("Él", "ía"),
       ("Nosotros", "íamos"), ("Vosotros", "íais"), ("Ellos", "ían")]),
     ("subjunctive",
      [("Yo", "e"), ("Tú", "es"), ("Él", "e"),
       ("Nosotros", "emos"), ("Vosotros", "éis"), ("Ellos", "en")])]
  REGULAR_ENDINGS_ER :=
    [("present",
      [("Yo", "o"), ("Tú", "es"), ("Él", "e"),
       ("Nosotros", "emos"), ("Vosotros", "éis"), ("Ellos", "en")]),
     ("preterite",
      [("Yo", "í"), ("Tú", "iste"), ("Él", "ió"),
       ("Nosotros", "imos"), ("Vosotros", "isteis"), ("Ellos", "ieron")]),
     ("imperfect",
      [("Yo", "ía"), ("Tú", "ías"), ("Él", "ía"),
       ("Nosotros", "íamos"), ("Vosotros", "íais"), ("Ellos", "ían")]),
     ("future",
      [("Yo", "é"), ("Tú", "ás"), ("Él", "á"),
       ("Nosotros", "emos"), ("Vosotros", "éis"), ("Ellos", "án")]),
     ("conditional",
      [("Yo", "ía"), ("Tú", "ías"), ("Él", "ía"),
       ("Nosotros", "íamos"), ("Vosotros", "íais"), ("Ellos", "ían")]),
     ("subjunctive",
      [("Yo", "a"), ("Tú", "as"), ("Él", "a"),
       ("Nosotros", "amos"), ("Vosotros", "áis"), ("Ellos", "an")])]
  REGULAR_ENDINGS_IR :=
    [("present",
      [("Yo", "o"), ("Tú", "es"), ("Él", "e"),
       ("Nosotros", "imos"), ("Vosotros", "ís"), ("Ellos", "en")]),
     ("preterite",
      [("Yo", "í"), ("Tú", "iste"), ("Él", "ió"),
       ("Nosotros", "imos"), ("Vosotros", "isteis"), ("Ellos", "ieron")]),
     ("imperfect",
      [("Yo", "ía"), ("Tú", "ías"), ("Él", "ía"),
       ("Nosotros", "íamos"), ("Vosotros", "íais"), ("Ellos", "ían")]),
     ("future",
      [("Yo", "é"), ("Tú", "ás"), ("Él", "á"),
       ("Nosotros", "emos"), ("Vosotros", "éis"), ("Ellos", "án")]),
     ("conditional",
      [("Yo", "ía"), ("Tú", "ías"), ("Él", "ía"),
       ("Nosotros", "íamos"), ("Vosotros", "íais"), ("Ellos", "ían")]),
     ("subjunctive",
      [("Yo", "a"), ("Tú", "as"), ("Él", "a"),
       ("Nosotros", "amos"), ("Vosotros", "áis"), ("Ellos", "an")])]

/-- Resolution succeeds with a non-empty string: the executable check
behind the safety claim. -/
def resolvesNonEmpty (d : VerbData) (verb tense person : String) : Bool :=
  match conjugate d verb tense person with
  | Except.ok s => !s.isEmpty
  | Except.error _ => false

/-- Embeds `TENSE_MARKERS` from `conjugation_utils.py` (this table is in
the source, not in the external data file). -/
def TENSE_MARKERS : List (String × String) :=
  [("present", "ahora"),
   ("preterite", "ayer"),
   ("imperfect", "cuando"),
   ("future", "mañana"),
   ("conditional", "si..."),
   ("subjunctive", "espero que")]

/-- Embeds `format_question_text`: `TENSE_MARKERS.get(tense, "")` is a
lookup with `""` as default, then the marker is placed after the blank for
the conditional tense and before it otherwise. -/
def format_question_text (person verb tense : String) : String :=
  let marker := (TENSE_MARKERS.lookup tense).getD ""
  let person_lower := person.toLower
  if tense = "conditional" then
    person_lower ++ " (" ++ verb ++ ") [...] " ++ marker
  else
    marker ++ " " ++ person_lower ++ " (" ++ verb ++ ") [...]"

/-- Embeds the `check` closure of `main.py` (identical in the regular and
irregular variants): `correct_ans.lower().strip() == submitted_ans.lower().strip()`. -/
def check (correct_ans submitted_ans : String) : Bool :=
  correct_ans.toLower.trim == submitted_ans.toLower.trim

/-- The suffix table selected by the ending-class dispatch of
`conjugate_regular` (the same `if ending == ...` chain appears in both its
branches). -/
def suffix_dict (d : VerbData) (ending : String) : TPDict :=
  if ending = "ar" then d.REGULAR_ENDINGS_AR
  else if ending = "er" then d.REGULAR_ENDINGS_ER
  else if ending = "ir" then d.REGULAR_ENDINGS_IR
  else []

/-- A data instance whose override table holds an entry under a tense and
a person outside the known sets; exercises the override short-circuit. -/
def tinyOverrideData : VerbData where
  ALL_VERBS := ["ir"]
  TENSES := ["present"]
  PERSONS := ["Yo"]
  IRREGULAR_OVERRIDES := [("ir", [("bogus", [("Nobody", "xx")])])]
  REGULAR_ENDINGS_AR := []
  REGULAR_ENDINGS_ER := []
  REGULAR_ENDINGS_IR := []

/-- A data instance containing a known verb whose last two characters are
not a supported ending class. -/
def oddEndingData : VerbData where
  ALL_VERBS := ["gooz"]
  TENSES := ["present"]
  PERSONS := ["Yo"]
  IRREGULAR_OVERRIDES := []
  REGULAR_ENDINGS_AR := []
  REGULAR_ENDINGS_ER := []
  REGULAR_ENDINGS_IR := []

/-! ## Helper lemmas -/

/-- On valid tense and person with a supported ending class whose table
holds the (tense, person) cell, `conjugate_regular` concatenates the
tense-dependent base with that cell. -/
theorem conjugate_regular_eq (d : VerbData) (verb tense person s : String)
    (ht : tense ∈ d.TENSES) (hp : person ∈ d.PERSONS)
    (he : get_infinitive_ending verb = "ar" ∨ get_infinitive_ending verb = "er" ∨
      get_infinitive_ending verb = "ir")
    (hs : dictGet (suffix_dict d (get_infinitive_ending verb)) tense person = Except.ok s) :
    conjugate_regular d verb tense person =
      Except.ok ((if tense = "future" ∨ tense = "conditional" then verb else get_stem verb) ++ s) := by
  rcases he with h | h | h <;>
    simp [suffix_dict, h] at hs <;>
    simp [conjugate_regular, ht, hp, h, hs] <;>
    split <;> rfl

/-- A true `resolvesNonEmpty` check yields a non-empty successful result. -/
theorem resolvesNonEmpty_spec (d : VerbData) (verb tense person : String)
    (h : resolvesNonEmpty d verb tense person = true) :
    ∃ s, conjugate d verb tense person = Except.ok s ∧ s ≠ "" := by
  unfold resolvesNonEmpty at h
  cases hc : conjugate d verb tense person with
  | ok s =>
    refine ⟨s, rfl, fun he => ?_⟩
    rw [hc, he] at h
    exact absurd h (by decide)
  | error e => rw [hc] at h; exact absurd h (by simp)

/-! ## Claims -/

/-- C1: for every verb in the known verb set that has an irregular-override
entry at the given (tense, person) pair, `conjugate` returns exactly the
literal string stored in the override table; the equation holds for every
data instance, whatever the regular-derivation path would produce. -/
theorem conjugate_override_hit (d : VerbData) (verb tense person form : String)
    (hv : verb ∈ d.ALL_VERBS)
    (ho : override_entry d verb tense person = some form) :
    conjugate d verb tense person = Except.ok form := by
  simp [conjugate, hv, ho]

/-- Witness for C1: `conjugate specVerbData "ir" "present" "Yo"` is the
stored override `"voy"`. -/
theorem conjugate_override_hit_witness :
    conjugate specVerbData "ir" "present" "Yo" = Except.ok "voy" :=
  conjugate_override_hit specVerbData "ir" "present" "Yo" "voy" (by decide) (by decide)

/-- C2: for every known verb with no override entry at the given
(tense, person) pair, valid tense and person, and a supported ending class,
`conjugate` returns the tense-dependent base (full infinitive for
future/conditional, stem otherwise) concatenated with the suffix found at
`suffix_dict` at the ending class, tense and person. -/
theorem conjugate_regular_fallback (d : VerbData) (verb tense person s : String)
    (hv : verb ∈ d.ALL_VERBS)
    (ho : override_entry d verb tense person = none)
    (ht : tense ∈ d.TENSES) (hp : person ∈ d.PERSONS)
    (he : get_infinitive_ending verb = "ar" ∨ get_infinitive_ending verb = "er" ∨
      get_infinitive_ending verb = "ir")
    (hs : dictGet (suffix_dict d (get_infinitive_ending verb)) tense person = Except.ok s) :
    conjugate d verb tense person =
      Except.ok ((if tense = "future" ∨ tense = "conditional" then verb else get_stem verb) ++ s) := by
  rw [conjugate, if_pos hv, ho]
  exact conjugate_regular_eq d verb tense person s ht hp he hs

/-- Witness for C2: `deber` has no override at (present, Yo) and resolves
to stem plus suffix, `"deb" ++ "o"`. -/
theorem conjugate_regular_fallback_witness :
    conjugate specVerbData "deber" "present" "Yo" =
      Except.ok ((if ("present" : String) = "future" ∨ ("present" : String) = "conditional"
        then "deber" else get_stem "deber") ++ "o") :=
  conjugate_regular_fallback specVerbData "deber" "present" "Yo" "o"
    (by decide) (by decide) (by decide) (by decide) (by decide) (by rfl)

/-- C3: on the regular-derivation path the base for the future and
conditional tenses is the entire infinitive, and the base for every other
tense is the infinitive with its final two characters removed. -/
theorem conjugate_regular_base (d : VerbData) (verb tense person s : String)
    (ht : tense ∈ d.TENSES) (hp : person ∈ d.PERSONS)
    (he : get_infinitive_ending verb = "ar" ∨ get_infinitive_ending verb = "er" ∨
      get_infinitive_ending verb = "ir")
    (hs : dictGet (suffix_dict d (get_infinitive_ending verb)) tense person = Except.ok s) :
    ((tense = "future" ∨ tense = "conditional") →
      conjugate_regular d verb tense person = Except.ok (verb ++ s)) ∧
    (¬(tense = "future" ∨ tense = "conditional") →
      conjugate_regular d verb tense person = Except.ok (verb.dropRight 2 ++ s)) := by
  have h := conjugate_regular_eq d verb tense person s ht hp he hs
  constructor <;> intro hc
  · rwa [if_pos hc] at h
  · rw [if_neg hc] at h; exact h

/-- Witness for C3: `hablar` in the future tense uses the full infinitive
as base, giving `"hablar" ++ "é"`. -/
theorem conjugate_regular_base_witness :
    conjugate_regular specVerbData "hablar" "future" "Yo" = Except.ok ("hablar" ++ "é") :=
  (conjugate_regular_base specVerbData "hablar" "future" "Yo" "é"
    (by decide) (by decide) (by decide) (by rfl)).1 (Or.inl rfl)

/-- C4: for every verb in the known verb set, every tense in the known
tense set, and every person in the known person set of the modelled data,
`conjugate` returns a successful, non-empty string (no error branch is
reached). -/
theorem conjugate_total_nonempty :
    ∀ verb ∈ specVerbData.ALL_VERBS, ∀ tense ∈ specVerbData.TENSES,
      ∀ person ∈ specVerbData.PERSONS,
        ∃ s, conjugate specVerbData verb tense person = Except.ok s ∧ s ≠ "" := by
  have hall : (specVerbData.ALL_VERBS.all fun v =>
      specVerbData.TENSES.all fun t =>
        specVerbData.PERSONS.all fun p => resolvesNonEmpty specVerbData v t p) = true := by
    decide
  intro v hv t ht p hp
  exact resolvesNonEmpty_spec specVerbData v t p
    (List.all_eq_true.mp ((List.all_eq_true.mp ((List.all_eq_true.mp hall) v hv)) t ht) p hp)

/-- Witness for C4 at the cell (ir, future, Tú), which has no override and
resolves through the regular path. -/
theorem conjugate_total_nonempty_witness :
    ∃ s, conjugate specVerbData "ir" "future" "Tú" = Except.ok s ∧ s ≠ "" :=
  conjugate_total_nonempty "ir" (by decide) "future" (by decide) "Tú" (by decide)

/-- C5: an unknown verb, an unknown tense, an unknown person, and an
unsupported verb ending each make `conjugate` fail with the corresponding
distinct error kind — `unknownVerb`, `unknownTense`, `unknownPerson`,
`unsupportedEnding` respectively — never any other kind. -/
theorem conjugate_error_kinds (d : VerbData) :
    (∀ verb tense person, verb ∉ d.ALL_VERBS →
      ∃ e, conjugate d verb tense person = Except.error e ∧
        ConjError.kind e = ErrKind.unknownVerb) ∧
    (∀ verb tense person, verb ∈ d.ALL_VERBS →
      override_entry d verb tense person = none → tense ∉ d.TENSES →
      ∃ e, conjugate d verb tense person = Except.error e ∧
        ConjError.kind e = ErrKind.unknownTense) ∧
    (∀ verb tense person, verb ∈ d.ALL_VERBS →
      override_entry d verb tense person = none → tense ∈ d.TENSES →
      person ∉ d.PERSONS →
      ∃ e, conjugate d verb tense person = Except.error e ∧
        ConjError.kind e = ErrKind.unknownPerson) ∧
    (∀ verb tense person, verb ∈ d.ALL_VERBS →
      override_entry d verb tense person = none → tense ∈ d.TENSES →
      person ∈ d.PERSONS →
      get_infinitive_ending verb ≠ "ar" → get_infinitive_ending verb ≠ "er" →
      get_infinitive_ending verb ≠ "ir" →
      ∃ e, conjugate d verb tense person = Except.error e ∧
        ConjError.kind e = ErrKind.unsupportedEnding) := by
  refine ⟨?_, ?_, ?_, ?_⟩
  · intro verb tense person hv
    exact ⟨ConjError.unknownVerb verb d.ALL_VERBS, by simp [conjugate, hv], rfl⟩
  · intro verb tense person hv ho ht
    exact ⟨ConjError.unknownTense tense d.TENSES,
      by simp [conjugate, hv, ho, conjugate_regular, ht], rfl⟩
  · intro verb tense person hv ho ht hp
    exact ⟨ConjError.unknownPerson person d.PERSONS,
      by simp [conjugate, hv, ho, conjugate_regular, ht, hp], rfl⟩
  · intro verb tense person hv ho ht hp h1 h2 h3
    exact ⟨ConjError.unsupportedEnding (get_infinitive_ending verb),
      by simp [conjugate, hv, ho, conjugate_regular, ht, hp, h1, h2, h3], rfl⟩

/-- Witness for C5: each of the four error kinds observed on concrete
inputs. -/
theorem conjugate_error_kinds_witness :
    (∃ e, conjugate specVerbData "zzz" "present" "Yo" = Except.error e ∧
      ConjError.kind e = ErrKind.unknownVerb) ∧
    (∃ e, conjugate specVerbData "deber" "bogus" "Yo" = Except.error e ∧
      ConjError.kind e = ErrKind.unknownTense) ∧
    (∃ e, conjugate specVerbData "deber" "present" "nobody" = Except.error e ∧
      ConjError.kind e = ErrKind.unknownPerson) ∧
    (∃ e, conjugate oddEndingData "gooz" "present" "Yo" = Except.error e ∧
      ConjError.kind e = ErrKind.unsupportedEnding) :=
  ⟨(conjugate_error_kinds specVerbData).1 "zzz" "present" "Yo" (by decide),
   (conjugate_error_kinds specVerbData).2.1 "deber" "bogus" "Yo"
     (by decide) (by decide) (by decide),
   (conjugate_error_kinds specVerbData).2.2.1 "deber" "present" "nobody"
     (by decide) (by decide) (by decide) (by decide),
   (conjugate_error_kinds oddEndingData).2.2.2 "gooz" "present" "Yo"
     (by decide) (by decide) (by decide) (by decide) (by decide) (by decide) (by decide)⟩

/-- C6: for every verb outside the known verb set, `conjugate` fails with
an `unknownVerb` error carrying the invalid verb and the list of valid
verbs, whatever the tense and person; the equation holds for every data
instance, so no conjugated form is computed. -/
theorem conjugate_unknown_verb (d : VerbData) (verb tense person : String)
    (hv : verb ∉ d.ALL_VERBS) :
    conjugate d verb tense person =
      Except.error (ConjError.unknownVerb verb d.ALL_VERBS) := by
  simp [conjugate, hv]

/-- Witness for C6: the unknown verb `zzz` is rejected with the error
naming it and listing the ten valid verbs. -/
theorem conjugate_unknown_verb_witness :
    conjugate specVerbData "zzz" "future" "Tú" =
      Except.error (ConjError.unknownVerb "zzz" specVerbData.ALL_VERBS) :=
  conjugate_unknown_verb specVerbData "zzz" "future" "Tú" (by decide)

/-- C7: for every person and verb and every tense in the marker table, the
question text places the tense's marker word after the blank `[...]` when
the tense is conditional, and before the blank for every other tense. -/
theorem format_question_marker_position (person verb tense : String)
    (ht : tense ∈ TENSE_MARKERS.map Prod.fst) :
    ∃ marker, TENSE_MARKERS.lookup tense = some marker ∧
      (tense = "conditional" →
        format_question_text person verb tense =
          person.toLower ++ " (" ++ verb ++ ") [...] " ++ marker) ∧
      (tense ≠ "conditional" →
        format_question_text person verb tense =
          marker ++ " " ++ person.toLower ++ " (" ++ verb ++ ") [...]") := by
  simp [TENSE_MARKERS] at ht
  rcases ht with h | h | h | h | h | h <;> subst h <;>
    refine ⟨_, rfl, fun hc => ?_, fun hc => ?_⟩ <;>
    first
      | exact absurd hc (by decide)
      | exact absurd rfl hc
      | rfl

/-- Witness for C7 at the conditional tense: the marker `si...` follows
the blank. -/
theorem format_question_marker_position_witness :
    ∃ marker, TENSE_MARKERS.lookup "conditional" = some marker ∧
      (("conditional" : String) = "conditional" →
        format_question_text "Yo" "hablar" "conditional" =
          "Yo".toLower ++ " (" ++ "hablar" ++ ") [...] " ++ marker) ∧
      (("conditional" : String) ≠ "conditional" →
        format_question_text "Yo" "hablar" "conditional" =
          marker ++ " " ++ "Yo".toLower ++ " (" ++ "hablar" ++ ") [...]") :=
  format_question_marker_position "Yo" "hablar" "conditional" (by decide)

/-- C8: the quiz-layer answer check returns `true` exactly when the two
strings agree after lowercasing and trimming surrounding whitespace. -/
theorem check_iff_lower_trim_eq (correct_ans submitted_ans : String) :
    check correct_ans submitted_ans = true ↔
      correct_ans.toLower.trim = submitted_ans.toLower.trim := by
  simp [check]

/-- C9: when the override table holds an entry at the given verb, tense
and person, `conjugate` returns it even though the tense and the person
lie outside the known sets — membership is validated only on the
regular-fallback path. -/
theorem conjugate_override_skips_validation (d : VerbData)
    (verb tense person form : String)
    (hv : verb ∈ d.ALL_VERBS)
    (ho : override_entry d verb tense person = some form)
    (ht : tense ∉ d.TENSES) (hp : person ∉ d.PERSONS) :
    conjugate d verb tense person = Except.ok form := by
  simp [conjugate, hv, ho]

/-- Witness for C9: an override stored under the bogus tense `bogus` and
the bogus person `Nobody` is returned although neither is known. -/
theorem conjugate_override_skips_validation_witness :
    conjugate tinyOverrideData "ir" "bogus" "Nobody" = Except.ok "xx" :=
  conjugate_override_skips_validation tinyOverrideData "ir" "bogus" "Nobody" "xx"
    (by decide) (by decide) (by decide) (by decide)

/-- C10: the question formatter is a total function, and for a tense
outside the marker table it uses the empty default marker, producing a
prompt that begins with a space and contains no marker word. -/
theorem format_question_total_default (person verb tense : String)
    (h : TENSE_MARKERS.lookup tense = none) :
    format_question_text person verb tense =
      " " ++ person.toLower ++ " (" ++ verb ++ ") [...]" := by
  have hc : tense ≠ "conditional" := fun he => by
    subst he; rw [show TENSE_MARKERS.lookup "conditional" = some "si..." from rfl] at h
    exact Option.noConfusion h
  simp [format_question_text, hc, h]

/-- Witness for C10: the unmapped tense `bogus` yields a prompt starting
with a space and carrying no marker. -/
theorem format_question_total_default_witness :
    format_question_text "Tú" "vivir" "bogus" =
      " " ++ "Tú".toLower ++ " (" ++ "vivir" ++ ") [...]" :=
  format_question_total_default "Tú" "vivir" "bogus" (by decide)
